import Mathlib

/-!
Verification of the smart-up-cli dependency updater.

The repository ships one script in two revisions; the live entry point is
`src/index.ts` (program version 1.3.1), which this development embeds.  The
embedding models:

* the semantic-version coercion and diffing the script delegates to the
  external `semver` library (`semver.coerce`, `semver.diff`), restricted to
  the release-only canonical versions `coerce` produces;
* the update catalog built from the manifest and the raw resolver
  (`npm-check-updates`) output (`updates` in the script);
* the risk ordering and the stable sort applied to the catalog;
* the default-selection policy of the interactive choices;
* the repository-URL lookup `getPackageUrl`;
* the package-manager detection and install command selection;
* the orchestration of `runSmartUpdate` around the install subprocess
  (backup, mutation, rollback prompt, cancellation handling), with the
  external collaborators (resolver mutation, prompts, install) supplied as
  inputs.
-/

namespace SmartUp

/-- Canonical MAJOR.MINOR.PATCH triple, the result of a successful
`semver.coerce` (which always yields a release version, with no
pre-release identifiers and no build metadata). -/
structure Triple where
  major : Nat
  minor : Nat
  patch : Nat
deriving DecidableEq, Repr

/-- The `type` field of `UpdateInfo` in src/index.ts:
`'major' | 'premajor' | 'minor' | 'patch' | 'other'`. -/
inductive UpdateType where
  | major
  | premajor
  | minor
  | patch
  | other
deriving DecidableEq, Repr

/-- The string value stored in the `type` field for each variant. -/
def typeKey : UpdateType → String
  | .major => "major"
  | .premajor => "premajor"
  | .minor => "minor"
  | .patch => "patch"
  | .other => "other"

/-- Splits a character list into its leading run of decimal digits and the
remainder. -/
def takeDigits : List Char → List Char × List Char
  | [] => ([], [])
  | c :: cs =>
    if c.isDigit then
      let p := takeDigits cs
      (c :: p.1, p.2)
    else ([], c :: cs)

/-- Numeric value of a digit run. -/
def digitsToNat (l : List Char) : Nat :=
  l.foldl (fun n c => n * 10 + (c.toNat - 48)) 0

/-- Parses an optional `.<digits>` component, mirroring the optional
`(?:\.(\d{1,16}))?` groups of the semver library's coercion pattern: the
component is taken only when a dot is immediately followed by a digit run
of at most 16 digits. -/
def parseDotNum (l : List Char) : Option (Nat × List Char) :=
  match l with
  | '.' :: rest =>
    let p := takeDigits rest
    if p.1 = [] then none
    else if p.1.length ≤ 16 then some (digitsToNat p.1, p.2)
    else none
  | _ => none

/-- Assembles the coerced triple from a matched major component and the
remaining characters; missing minor/patch components default to 0. -/
def tripleFrom (maj : Nat) (rest : List Char) : Triple :=
  match parseDotNum rest with
  | none => ⟨maj, 0, 0⟩
  | some (mi, rest2) =>
    match parseDotNum rest2 with
    | none => ⟨maj, mi, 0⟩
    | some (pa, _) => ⟨maj, mi, pa⟩

/-- Fuel-indexed scan for the first coercible position: the first maximal
digit run of at most 16 digits (runs longer than 16 digits cannot match the
library's `\d{1,16}` group and are skipped).  The fuel is the length of the
input, which each step strictly decreases, so the scan is total. -/
def scanCoerce : Nat → List Char → Option Triple
  | 0, _ => none
  | _ + 1, [] => none
  | fuel + 1, c :: cs =>
    if c.isDigit then
      let p := takeDigits (c :: cs)
      if p.1.length ≤ 16 then some (tripleFrom (digitsToNat p.1) p.2)
      else scanCoerce fuel p.2
    else scanCoerce fuel cs

/-- Model of the external library's `semver.coerce`: best-effort extraction
of the first parseable `MAJOR[.MINOR[.PATCH]]` from a raw specifier, with
`none` when no version can be extracted (for example `"latest"`, `"*"` or
the empty string).  The spec treats the semver library as a correct
external dependency; this definition captures its documented coercion
behaviour on the inputs the program feeds it. -/
def coerce (s : String) : Option Triple :=
  scanCoerce s.toList.length s.toList

/-- Model of the external library's `semver.diff` on the release-only
canonical versions produced by `coerce` (so the pre-release branches of the
library, which yield the `pre*` results, cannot fire): `none` for equal
versions, otherwise the highest component that changed. -/
def semverDiff (a b : Triple) : Option UpdateType :=
  if a = b then none
  else if a.major ≠ b.major then some .major
  else if a.minor ≠ b.minor then some .minor
  else some .patch

/-- The classification performed per dependency in `updates`
(src/index.ts lines 149-159): coerce both raw versions; when either
coercion fails the type stays `'other'`, otherwise it is
`semver.diff(...) || 'other'`. -/
def classifyType (cur proposed : String) : UpdateType :=
  match coerce cur, coerce proposed with
  | some a, some b =>
    match semverDiff a b with
    | some t => t
    | none => .other
  | _, _ => .other

/-- The two dependency sections of package.json the script reads, as
association lists from package name to raw version specifier. -/
structure Manifest where
  dependencies : List (String × String)
  devDependencies : List (String × String)
deriving DecidableEq, Repr

/-- JavaScript `a || b` on an optionally-present string: an absent or empty
(falsy) left operand yields the right operand. -/
def jsOrS (a : Option String) (b : String) : String :=
  match a with
  | some s => if s = "" then b else s
  | none => b

/-- `pkgContent.dependencies?.[dep] || pkgContent.devDependencies?.[dep]
|| '0.0.0'` (src/index.ts line 150). -/
def currentVersionRaw (m : Manifest) (dep : String) : String :=
  jsOrS (m.dependencies.lookup dep) (jsOrS (m.devDependencies.lookup dep) "0.0.0")

/-- JSON/JavaScript values as far as `getPackageUrl` inspects them. -/
inductive JsVal where
  | vstr (s : String)
  | vnum (n : Int)
  | vbool (b : Bool)
  | vnull
  | vobj (fields : List (String × JsVal))

/-- JavaScript truthiness of a present value. -/
def truthy : JsVal → Bool
  | .vstr s => s ≠ ""
  | .vnum n => n ≠ 0
  | .vbool b => b
  | .vnull => false
  | .vobj _ => true

/-- JavaScript `a || b` on optionally-present values: the left operand when
it is present and truthy, otherwise the right operand as-is. -/
def jsOrV (a b : Option JsVal) : Option JsVal :=
  match a with
  | some v => if truthy v then some v else b
  | none => b

/-- The two fields of `node_modules/<dep>/package.json` that
`getPackageUrl` reads; `none` models an absent field. -/
structure PackageMeta where
  homepage : Option JsVal
  repository : Option JsVal

/-- `pkg.repository?.url`: optional chaining yields a value only when
`repository` is an object with a `url` field; on an absent, null or
primitive `repository` the access yields undefined. -/
def repoDotUrl (p : PackageMeta) : Option JsVal :=
  match p.repository with
  | some (.vobj fields) => fields.lookup "url"
  | _ => none

/-- `url.replace(/^git\+/, '')`: the regex is anchored, so this removes one
leading `git+` when present. -/
def dropGitPlus (s : String) : String :=
  if s.startsWith "git+" then s.drop 4 else s

/-- `url.replace(/\.git$/, '')`: removes one trailing `.git` when present. -/
def dropDotGit (s : String) : String :=
  if s.endsWith ".git" then s.dropRight 4 else s

/-- The default npm link returned on every failure path. -/
def fallbackUrl (dep : String) : String :=
  "https://www.npmjs.com/package/" ++ dep

/-- `getPackageUrl` (src/index.ts lines 54-69).  The `nodeModules`
argument models the filesystem read: `none` stands for a missing
`node_modules/<dep>/package.json` as well as for a read or JSON-parse
failure (the try/catch swallows those and falls through to the default
link). -/
def getPackageUrl (nodeModules : String → Option PackageMeta) (dep : String) : String :=
  match nodeModules dep with
  | some pkg =>
    match jsOrV pkg.homepage (jsOrV (repoDotUrl pkg) pkg.repository) with
    | some (.vstr s) => dropDotGit (dropGitPlus s)
    | _ => fallbackUrl dep
  | none => fallbackUrl dep

/-- The resolved `pkg.homepage || pkg.repository?.url || pkg.repository`
value when it is a string: the field `getPackageUrl` returns (before
stripping the VCS decorations), `none` on every fallback path. -/
def urlFieldString (nodeModules : String → Option PackageMeta) (dep : String) : Option String :=
  match nodeModules dep with
  | some pkg =>
    match jsOrV pkg.homepage (jsOrV (repoDotUrl pkg) pkg.repository) with
    | some (.vstr s) => some s
    | _ => none
  | none => none

/-- One entry of the update catalog (`UpdateInfo` in src/index.ts). -/
structure UpdateInfo where
  name : String
  current : String
  upgrade : String
  type : UpdateType
  url : String
deriving DecidableEq, Repr

/-- The body of the `depNames.map` callback building one catalog entry
(src/index.ts lines 149-168). -/
def mkUpdateInfo (m : Manifest) (nodeModules : String → Option PackageMeta)
    (entry : String × String) : UpdateInfo :=
  let cur := currentVersionRaw m entry.1
  { name := entry.1
    current := cur
    upgrade := entry.2
    type := classifyType cur entry.2
    url := getPackageUrl nodeModules entry.1 }

/-- The `updates` array: one entry per key of the raw resolver output
(`upgradedRaw`), in resolver-report order. -/
def updates (m : Manifest) (nodeModules : String → Option PackageMeta)
    (upgradedRaw : List (String × String)) : List UpdateInfo :=
  upgradedRaw.map (mkUpdateInfo m nodeModules)

/-- `const riskOrder = ['patch', 'minor', 'premajor', 'major', 'other']`
(src/index.ts line 170). -/
def riskOrder : List String :=
  ["patch", "minor", "premajor", "major", "other"]

/-- `riskOrder.indexOf(update.type)`; every type string occurs in
`riskOrder`, so the `-1` case of `indexOf` never arises. -/
def riskRank (t : UpdateType) : Nat :=
  riskOrder.indexOf (typeKey t)

/-- The comparison underlying `updates.sort((a, b) =>
riskOrder.indexOf(a.type) - riskOrder.indexOf(b.type))`. -/
def riskLe (a b : UpdateInfo) : Bool :=
  riskRank a.type ≤ riskRank b.type

/-- The sort of the catalog (src/index.ts line 171).
`Array.prototype.sort` is specified to be stable, and a stable sort with
respect to a total preorder has a unique result, so `List.mergeSort`
(stable by construction) with the same comparison computes exactly the
array the script produces. -/
def sortUpdates (l : List UpdateInfo) : List UpdateInfo :=
  l.mergeSort riskLe

/-- The data of one interactive choice handed to the checkbox prompt: its
`value` payload, pre-checked state and `short` label.  The `name` field of
the source object is the colored display string (chalk markup), purely
presentational, and is not modelled. -/
structure Choice where
  valueName : String
  valueVersion : String
  checked : Bool
  short : String
deriving DecidableEq, Repr

/-- The `checked` flag computed by the switch in the `choices` map
(src/index.ts lines 173-203): initialised to `true`, then assigned in
every branch — `false` for `'major'`, `false` for `'premajor'`, `true` for
`'minor'`, `true` for `'patch'`, and `false` in the `default` branch. -/
def defaultChecked : UpdateType → Bool
  | .major => false
  | .premajor => false
  | .minor => true
  | .patch => true
  | .other => false

/-- One element of the `choices` array (src/index.ts lines 205-210). -/
def mkChoice (u : UpdateInfo) : Choice :=
  { valueName := u.name
    valueVersion := u.upgrade
    checked := defaultChecked u.type
    short := u.name }

/-- The `choices` array handed to the interactive prompt. -/
def choices (l : List UpdateInfo) : List Choice :=
  l.map mkChoice

/-- `detectPackageManager` (src/index.ts lines 44-49), as a function of
which lock files exist. -/
def detectPackageManager (yarnLock pnpmLock bunLockb : Bool) : String :=
  if yarnLock then "yarn"
  else if pnpmLock then "pnpm"
  else if bunLockb then "bun"
  else "npm"

/-- The `installCmd` selection (src/index.ts lines 265-268): initialised
to `'npm install'`, then reassigned by the manager checks (at most one of
which can match). -/
def installCmd (manager : String) : String :=
  if manager = "yarn" then "yarn"
  else if manager = "pnpm" then "pnpm install"
  else if manager = "bun" then "bun install"
  else "npm install"

/-- The fragment of the filesystem `runSmartUpdate` touches: the contents
of `package.json` and of `package.json.bak` (`none` = the file does not
exist). -/
structure FileSystem where
  manifest : Option String
  backupFile : Option String
deriving DecidableEq, Repr

/-- `backupPackageJson` (src/index.ts lines 84-91): copies package.json to
package.json.bak; the copy fails (returning false, which the caller only
logs) when there is no manifest to copy. -/
def backupPackageJson (fs : FileSystem) : FileSystem :=
  match fs.manifest with
  | some c => { fs with backupFile := some c }
  | none => fs

/-- `restoreBackup` (src/index.ts lines 96-106): when package.json.bak
exists it is copied back over package.json and then deleted; otherwise
nothing happens. -/
def restoreBackup (fs : FileSystem) : FileSystem :=
  match fs.backupFile with
  | some b => { manifest := some b, backupFile := none }
  | none => fs

/-- The CLI options: `--dry-run` and `--no-backup` (`backup = false` means
`--no-backup` was passed, matching `options.backup !== false`). -/
structure CliOptions where
  dryRun : Bool
  backup : Bool
deriving DecidableEq, Repr

/-- The outcome of an interactive prompt: an answer, or the user
force-closing the prompt.  Force-closing makes the prompt library throw
(`ExitPromptError`, message containing `User force closed`), which the
top-level catch of `runSmartUpdate` recognises. -/
inductive PromptResult (α : Type) where
  | answered (a : α)
  | cancelled
deriving DecidableEq, Repr

/-- One run's worth of behaviour of the external collaborators: the raw
resolver report, the checkbox-prompt result (the selected `name` values),
the install subprocess exit status (`true` = success), and the
rollback-confirmation prompt result. -/
structure RunInput where
  upgradedRaw : List (String × String)
  selection : PromptResult (List String)
  installOk : Bool
  restoreAnswer : PromptResult Bool
deriving DecidableEq, Repr

/-- How a run of `runSmartUpdate` ends.  `cancelledBye` is the clean exit
taken by the top-level catch when a prompt was force-closed (it prints the
"Bye" box and returns normally); no error is reported on that path. -/
inductive Outcome where
  | noManifest
  | upToDate
  | cancelledBye
  | noneSelected
  | dryRunShown
  | installed
  | rolledBack
  | keptDirty
deriving DecidableEq, Repr

/-- Final filesystem state and outcome of a run. -/
structure RunResult where
  fs : FileSystem
  outcome : Outcome
deriving DecidableEq, Repr

/-- Control flow of `runSmartUpdate` (src/index.ts lines 111-310) around
its external collaborators.  `mutateManifest` models the second
`ncu.run({upgrade: true, filter, ...})` call, which rewrites package.json
for exactly the selected names.  A `cancelled` prompt result models the
prompt throwing; the exception propagates (from inside the inner catch in
the rollback case) to the top-level catch, which exits cleanly with the
"Bye" message.  On install success the backup file is removed only when
backups are enabled and it exists; on install failure the user is asked
whether to restore, a confirmation runs `restoreBackup`, and a decline
keeps the mutated manifest and the backup file. -/
def runSmartUpdate (opts : CliOptions) (mutateManifest : String → List String → String)
    (inp : RunInput) (fs : FileSystem) : RunResult :=
  match fs.manifest with
  | none => { fs := fs, outcome := .noManifest }
  | some content =>
    if inp.upgradedRaw.isEmpty then { fs := fs, outcome := .upToDate }
    else
      match inp.selection with
      | .cancelled => { fs := fs, outcome := .cancelledBye }
      | .answered selected =>
        if selected.isEmpty then { fs := fs, outcome := .noneSelected }
        else if opts.dryRun then { fs := fs, outcome := .dryRunShown }
        else
          let fs1 := if opts.backup then backupPackageJson fs else fs
          let fs2 : FileSystem := { fs1 with manifest := some (mutateManifest content selected) }
          if inp.installOk then
            let fs3 : FileSystem :=
              if opts.backup && fs2.backupFile.isSome then { fs2 with backupFile := none } else fs2
            { fs := fs3, outcome := .installed }
          else
            match inp.restoreAnswer with
            | .cancelled => { fs := fs2, outcome := .cancelledBye }
            | .answered true => { fs := restoreBackup fs2, outcome := .rolledBack }
            | .answered false => { fs := fs2, outcome := .keptDirty }

/-- Spec-side measure for the catalog-length claim: the names declared in
either dependency section of the manifest. -/
def declaredNames (m : Manifest) : List String :=
  (m.dependencies ++ m.devDependencies).map Prod.fst

/-- Spec-side measure for the catalog-length claim: the number of
resolver-reported candidates whose name is a declared dependency. -/
def specIntersectionCount (m : Manifest) (upgradedRaw : List (String × String)) : Nat :=
  ((upgradedRaw.map Prod.fst).filter (fun n => (declaredNames m).contains n)).length

/-! ### Helper lemmas -/

/-- Explicit form of `semverDiff`: component-wise comparison, highest
changed component first, `none` exactly on equal triples. -/
theorem semverDiff_eq (a b : Triple) :
    semverDiff a b =
      (if a.major ≠ b.major then some UpdateType.major
       else if a.minor ≠ b.minor then some UpdateType.minor
       else if a.patch ≠ b.patch then some UpdateType.patch
       else none) := by
  unfold semverDiff
  by_cases hab : a = b
  · subst hab; simp
  · have hcomp : ¬(a.major = b.major ∧ a.minor = b.minor ∧ a.patch = b.patch) := by
      rintro ⟨h1, h2, h3⟩
      exact hab (by cases a; cases b; simp_all)
    by_cases h1 : a.major = b.major <;> by_cases h2 : a.minor = b.minor <;>
      by_cases h3 : a.patch = b.patch <;> simp_all

/-- The risk comparison is transitive. -/
theorem riskLe_trans (a b c : UpdateInfo) (h1 : riskLe a b) (h2 : riskLe b c) :
    riskLe a c := by
  simp only [riskLe, decide_eq_true_eq] at *
  omega

/-- The risk comparison is total. -/
theorem riskLe_total (a b : UpdateInfo) : riskLe a b || riskLe b a := by
  simp only [riskLe, Bool.or_eq_true, decide_eq_true_eq]
  omega

/-- Candidates of one fixed tier are pairwise ordered by the risk
comparison (their ranks are equal). -/
theorem pairwise_riskLe_filter (t : UpdateType) (l : List UpdateInfo) :
    (l.filter (fun u => u.type == t)).Pairwise (fun a b => riskLe a b) := by
  rw [List.pairwise_iff_forall_sublist]
  intro a b hab
  have ha : a ∈ l.filter (fun u => u.type == t) := hab.subset (by simp)
  have hb : b ∈ l.filter (fun u => u.type == t) := hab.subset (by simp)
  have ha' : a.type = t := by simpa using (List.mem_filter.mp ha).2
  have hb' : b.type = t := by simpa using (List.mem_filter.mp hb).2
  simp [riskLe, ha', hb']

/-- Stability of the catalog sort: filtering the sorted catalog to one
tier returns the same list as filtering the unsorted catalog, i.e. equal
tiers stay in their original relative order. -/
theorem filter_type_sortUpdates (t : UpdateType) (l : List UpdateInfo) :
    (sortUpdates l).filter (fun u => u.type == t) = l.filter (fun u => u.type == t) := by
  have hsub : List.Sublist (l.filter (fun u => u.type == t)) l := List.filter_sublist l
  have h1 : List.Sublist (l.filter (fun u => u.type == t)) (sortUpdates l) :=
    List.sublist_mergeSort riskLe_trans riskLe_total (pairwise_riskLe_filter t l) hsub
  have h2 := h1.filter (fun u => u.type == t)
  have heq : (l.filter (fun u => u.type == t)).filter (fun u => u.type == t) =
      l.filter (fun u => u.type == t) :=
    List.filter_eq_self.mpr (fun a ha => (List.mem_filter.mp ha).2)
  rw [heq] at h2
  have hperm : List.Perm ((sortUpdates l).filter (fun u => u.type == t))
      (l.filter (fun u => u.type == t)) :=
    (List.mergeSort_perm l riskLe).filter (fun u => u.type == t)
  exact (h2.eq_of_length hperm.length_eq.symm).symm

/-! ### Claim theorems -/

/-- C1: for every update candidate, the pre-checked state handed to the
interactive prompt is true exactly when the candidate's risk tier is patch
or minor, and false for major, premajor and indeterminate (`'other'`)
tiers, unconditionally. -/
theorem default_selected_iff_patch_or_minor (u : UpdateInfo) :
    (mkChoice u).checked =
      decide (u.type = UpdateType.patch ∨ u.type = UpdateType.minor) := by
  cases h : u.type <;> simp [mkChoice, defaultChecked, h]

/-- C2: whenever both version strings coerce to canonical triples, the
classifier returns major when the major component changes, minor when only
the minor component changes, patch when only the patch component changes,
and indeterminate (`'other'`) in every other case (identical coerced
versions, which is where build-metadata-only or pre-release-only
differences land after coercion); coerced versions are release-only, so a
pre-release context never arises and the premajor tier is never
produced. -/
theorem classify_of_coerced (cur proposed : String) (a b : Triple)
    (ha : coerce cur = some a) (hb : coerce proposed = some b) :
    classifyType cur proposed =
      (if a.major ≠ b.major then UpdateType.major
       else if a.minor ≠ b.minor then UpdateType.minor
       else if a.patch ≠ b.patch then UpdateType.patch
       else UpdateType.other)
    ∧ classifyType cur proposed ≠ UpdateType.premajor := by
  have h : classifyType cur proposed =
      (match semverDiff a b with
       | some t => t
       | none => UpdateType.other) := by
    simp [classifyType, ha, hb]
  rw [h, semverDiff_eq]
  by_cases h1 : a.major = b.major <;> by_cases h2 : a.minor = b.minor <;>
    by_cases h3 : a.patch = b.patch <;> simp [h1, h2, h3]

/-- Witness for C2 at concrete inputs: `^1.2.3` against `1.3.0` coerce to
1.2.3 and 1.3.0 and classify as minor. -/
theorem classify_of_coerced_witness :
    classifyType "^1.2.3" "1.3.0" = UpdateType.minor ∧
      classifyType "^1.2.3" "1.3.0" ≠ UpdateType.premajor := by
  have h := classify_of_coerced "^1.2.3" "1.3.0" ⟨1, 2, 3⟩ ⟨1, 3, 0⟩ (by decide) (by decide)
  simpa using h

/-- C3: the sorted catalog is a permutation of the classified catalog,
it is ordered by ascending risk rank, the rank order is exactly patch,
minor, premajor, major, indeterminate (`'other'`), and the sort is stable:
restricted to any single tier, the sorted catalog lists the candidates in
their original resolver-report order. -/
theorem catalog_sorted_stable (m : Manifest) (nodeModules : String → Option PackageMeta)
    (upgradedRaw : List (String × String)) :
    List.Perm (sortUpdates (updates m nodeModules upgradedRaw)) (updates m nodeModules upgradedRaw)
    ∧ (sortUpdates (updates m nodeModules upgradedRaw)).Pairwise
        (fun a b => riskRank a.type ≤ riskRank b.type)
    ∧ (∀ t : UpdateType,
        (sortUpdates (updates m nodeModules upgradedRaw)).filter (fun u => u.type == t) =
          (updates m nodeModules upgradedRaw).filter (fun u => u.type == t))
    ∧ riskRank UpdateType.patch = 0 ∧ riskRank UpdateType.minor = 1
    ∧ riskRank UpdateType.premajor = 2 ∧ riskRank UpdateType.major = 3
    ∧ riskRank UpdateType.other = 4 := by
  refine ⟨List.mergeSort_perm _ riskLe, ?_, fun t => filter_type_sortUpdates t _,
    by decide, by decide, by decide, by decide, by decide⟩
  have hs := List.sorted_mergeSort riskLe_trans riskLe_total (updates m nodeModules upgradedRaw)
  exact hs.imp (fun h => by simpa [riskLe] using h)

/-- C4 counterexample: with no declared dependencies and one
resolver-reported candidate, the catalog has one entry while the
intersection of declared dependencies and reported candidates is empty, so
the catalog length is not the intersection size and a candidate name need
not be a declared dependency. -/
theorem catalog_length_not_intersection :
    (updates ⟨[], []⟩ (fun _ => none) [("left-pad", "1.3.0")]).length ≠
      specIntersectionCount ⟨[], []⟩ [("left-pad", "1.3.0")] := by
  decide

/-- C4 amended: the catalog has exactly one entry per resolver-reported
candidate, declared or not (so its length is the resolver-report count,
which coincides with the intersection size only when every reported name
is declared); a candidate with no entry in the manifest's
dependencies/devDependencies sections still appears, with the sentinel
current version 0.0.0 substituted. -/
theorem catalog_length_eq_resolver_count (m : Manifest)
    (nodeModules : String → Option PackageMeta) (upgradedRaw : List (String × String))
    (dep v : String) (hmem : (dep, v) ∈ upgradedRaw)
    (h1 : m.dependencies.lookup dep = none) (h2 : m.devDependencies.lookup dep = none) :
    (updates m nodeModules upgradedRaw).length = upgradedRaw.length
    ∧ ({ name := dep, current := "0.0.0", upgrade := v,
         type := classifyType "0.0.0" v,
         url := getPackageUrl nodeModules dep } : UpdateInfo) ∈ updates m nodeModules upgradedRaw := by
  constructor
  · simp [updates]
  · have hcur : currentVersionRaw m dep = "0.0.0" := by
      simp [currentVersionRaw, h1, h2, jsOrS]
    have hmk : mkUpdateInfo m nodeModules (dep, v) =
        { name := dep, current := "0.0.0", upgrade := v,
          type := classifyType "0.0.0" v, url := getPackageUrl nodeModules dep } := by
      simp [mkUpdateInfo, hcur]
    exact hmk ▸ List.mem_map_of_mem (mkUpdateInfo m nodeModules) hmem

/-- Witness for C4 amended: an undeclared candidate reported by the
resolver yields a one-entry catalog with current version 0.0.0. -/
theorem catalog_length_eq_resolver_count_witness :
    (updates ⟨[], []⟩ (fun _ => none) [("foo", "1.0.0")]).length = 1
    ∧ ({ name := "foo", current := "0.0.0", upgrade := "1.0.0",
         type := classifyType "0.0.0" "1.0.0",
         url := getPackageUrl (fun _ => none) "foo" } : UpdateInfo) ∈
        updates ⟨[], []⟩ (fun _ => none) [("foo", "1.0.0")] :=
  catalog_length_eq_resolver_count ⟨[], []⟩ (fun _ => none) [("foo", "1.0.0")]
    "foo" "1.0.0" (by decide) rfl rfl

/-- C5: when either the candidate's current raw version or its proposed
version fails to coerce, the classification degrades to indeterminate
(`'other'`) and the candidate still flows through the pipeline — the
catalog contains its entry — rather than any error being raised (the
embedding is total, mirroring the script, which has no throwing path
here). -/
theorem unparseable_degrades (m : Manifest) (nodeModules : String → Option PackageMeta)
    (upgradedRaw : List (String × String)) (dep v : String)
    (hmem : (dep, v) ∈ upgradedRaw)
    (h : coerce (currentVersionRaw m dep) = none ∨ coerce v = none) :
    classifyType (currentVersionRaw m dep) v = UpdateType.other
    ∧ ({ name := dep, current := currentVersionRaw m dep, upgrade := v,
         type := UpdateType.other,
         url := getPackageUrl nodeModules dep } : UpdateInfo) ∈ updates m nodeModules upgradedRaw := by
  have hcls : classifyType (currentVersionRaw m dep) v = UpdateType.other := by
    rcases h with h | h
    · cases hv : coerce v <;> simp [classifyType, h, hv]
    · cases hc : coerce (currentVersionRaw m dep) <;> simp [classifyType, h, hc]
  refine ⟨hcls, ?_⟩
  have hmk : mkUpdateInfo m nodeModules (dep, v) =
      { name := dep, current := currentVersionRaw m dep, upgrade := v,
        type := UpdateType.other, url := getPackageUrl nodeModules dep } := by
    simp [mkUpdateInfo, hcls]
  exact hmk ▸ List.mem_map_of_mem (mkUpdateInfo m nodeModules) hmem

/-- Witness for C5: a dependency declared as `latest` (uncoercible) is
classified indeterminate and still appears in the catalog. -/
theorem unparseable_degrades_witness :
    classifyType (currentVersionRaw ⟨[("foo", "latest")], []⟩ "foo") "2.0.0" = UpdateType.other
    ∧ ({ name := "foo", current := currentVersionRaw ⟨[("foo", "latest")], []⟩ "foo",
         upgrade := "2.0.0", type := UpdateType.other,
         url := getPackageUrl (fun _ => none) "foo" } : UpdateInfo) ∈
        updates ⟨[("foo", "latest")], []⟩ (fun _ => none) [("foo", "2.0.0")] :=
  unparseable_degrades ⟨[("foo", "latest")], []⟩ (fun _ => none) [("foo", "2.0.0")]
    "foo" "2.0.0" (by decide) (Or.inl (by decide))

/-- C6: after a failed install with a backup in place, confirming the
restore prompt copies the backup back over the manifest and deletes the
backup file (RolledBack); declining leaves the mutated manifest in place
and the backup file on disk (KeptDirty). -/
theorem rollback_confirm_or_decline (opts : CliOptions)
    (mutateManifest : String → List String → String) (inp : RunInput) (fs : FileSystem)
    (content : String) (sel : List String)
    (hman : fs.manifest = some content)
    (hraw : inp.upgradedRaw.isEmpty = false)
    (hsel : inp.selection = .answered sel) (hne : sel.isEmpty = false)
    (hdry : opts.dryRun = false) (hbak : opts.backup = true)
    (hfail : inp.installOk = false) :
    (inp.restoreAnswer = .answered true →
      runSmartUpdate opts mutateManifest inp fs =
        { fs := { manifest := some content, backupFile := none },
          outcome := .rolledBack })
    ∧ (inp.restoreAnswer = .answered false →
      runSmartUpdate opts mutateManifest inp fs =
        { fs := { manifest := some (mutateManifest content sel), backupFile := some content },
          outcome := .keptDirty }) := by
  constructor <;> intro hr <;>
    simp [runSmartUpdate, hman, hraw, hsel, hne, hdry, hbak, hfail, hr,
      backupPackageJson, restoreBackup]

/-- Witness for C6 at concrete inputs: confirming the restore rolls the
manifest back to its original content and removes the backup. -/
theorem rollback_confirm_or_decline_witness :
    runSmartUpdate ⟨false, true⟩ (fun _ _ => "MUTATED")
        ⟨[("a", "1.0.0")], .answered ["a"], false, .answered true⟩
        ⟨some "ORIGINAL", none⟩ =
      { fs := { manifest := some "ORIGINAL", backupFile := none },
        outcome := .rolledBack } :=
  (rollback_confirm_or_decline ⟨false, true⟩ (fun _ _ => "MUTATED")
    ⟨[("a", "1.0.0")], .answered ["a"], false, .answered true⟩
    ⟨some "ORIGINAL", none⟩ "ORIGINAL" ["a"] rfl rfl rfl rfl rfl rfl rfl).1 rfl

/-- C7: when the interactive selection prompt is force-closed, the run
takes the clean "Bye" exit of the top-level catch: the filesystem is
untouched (no mutation, no backup created) and no error outcome is
produced. -/
theorem selection_cancel_clean_exit (opts : CliOptions)
    (mutateManifest : String → List String → String) (inp : RunInput) (fs : FileSystem)
    (content : String)
    (hman : fs.manifest = some content)
    (hraw : inp.upgradedRaw.isEmpty = false)
    (hcancel : inp.selection = .cancelled) :
    runSmartUpdate opts mutateManifest inp fs = { fs := fs, outcome := .cancelledBye } := by
  simp [runSmartUpdate, hman, hraw, hcancel]

/-- Witness for C7: a cancelled selection prompt on a concrete run leaves
the files untouched and exits with the clean "Bye" outcome. -/
theorem selection_cancel_clean_exit_witness :
    runSmartUpdate ⟨false, true⟩ (fun _ _ => "MUTATED")
        ⟨[("a", "1.0.0")], .cancelled, true, .answered true⟩
        ⟨some "ORIGINAL", none⟩ =
      { fs := ⟨some "ORIGINAL", none⟩, outcome := .cancelledBye } :=
  selection_cancel_clean_exit ⟨false, true⟩ (fun _ _ => "MUTATED")
    ⟨[("a", "1.0.0")], .cancelled, true, .answered true⟩
    ⟨some "ORIGINAL", none⟩ "ORIGINAL" rfl rfl rfl

/-- C8: when the rollback-confirmation prompt after a failed install is
itself force-closed, the exception reaches the top-level catch and the run
exits cleanly with the "Bye" message; no restore is performed, so the
mutated manifest is kept and the backup file stays on disk — the same file
state a decline (KeptDirty) produces. -/
theorem restore_cancel_keeps_dirty (opts : CliOptions)
    (mutateManifest : String → List String → String) (inp : RunInput) (fs : FileSystem)
    (content : String) (sel : List String)
    (hman : fs.manifest = some content)
    (hraw : inp.upgradedRaw.isEmpty = false)
    (hsel : inp.selection = .answered sel) (hne : sel.isEmpty = false)
    (hdry : opts.dryRun = false) (hbak : opts.backup = true)
    (hfail : inp.installOk = false)
    (hrc : inp.restoreAnswer = .cancelled) :
    runSmartUpdate opts mutateManifest inp fs =
      { fs := { manifest := some (mutateManifest content sel), backupFile := some content },
        outcome := .cancelledBye }
    ∧ (runSmartUpdate opts mutateManifest inp fs).fs =
      (runSmartUpdate opts mutateManifest { inp with restoreAnswer := .answered false } fs).fs := by
  constructor <;>
    simp [runSmartUpdate, hman, hraw, hsel, hne, hdry, hbak, hfail, hrc,
      backupPackageJson, restoreBackup]

/-- Witness for C8 at concrete inputs: force-closing the restore prompt
keeps the mutated manifest and the backup file, with the clean exit. -/
theorem restore_cancel_keeps_dirty_witness :
    runSmartUpdate ⟨false, true⟩ (fun _ _ => "MUTATED")
        ⟨[("a", "1.0.0")], .answered ["a"], false, .cancelled⟩
        ⟨some "ORIGINAL", none⟩ =
      { fs := { manifest := some "MUTATED", backupFile := some "ORIGINAL" },
        outcome := .cancelledBye } :=
  (restore_cancel_keeps_dirty ⟨false, true⟩ (fun _ _ => "MUTATED")
    ⟨[("a", "1.0.0")], .answered ["a"], false, .cancelled⟩
    ⟨some "ORIGINAL", none⟩ "ORIGINAL" ["a"] rfl rfl rfl rfl rfl rfl rfl rfl).1

/-- C9: the source-URL lookup is total and never yields absence: whenever
the package metadata is readable and the resolved
`homepage || repository?.url || repository` value is a string, that string
is returned (with a leading `git+` and a trailing `.git` stripped), and in
every other case — missing or unreadable file, or a non-string resolved
value — the npm fallback link for the package is returned; as a total
function it never throws. -/
theorem package_url_total (nodeModules : String → Option PackageMeta) (dep : String) :
    getPackageUrl nodeModules dep =
      (match urlFieldString nodeModules dep with
       | some s => dropDotGit (dropGitPlus s)
       | none => fallbackUrl dep) := by
  unfold getPackageUrl urlFieldString
  cases hn : nodeModules dep with
  | none => rfl
  | some pkg =>
    cases hv : jsOrV pkg.homepage (jsOrV (repoDotUrl pkg) pkg.repository) with
    | none => simp [hv]
    | some v => cases v <;> simp [hv]

/-- C10: lock-file detection prefers yarn.lock, then pnpm-lock.yaml, then
bun.lockb, and falls back to npm when none is present; the install command
run for the detected manager is exactly `yarn`, `pnpm install`,
`bun install` or `npm install` respectively. -/
theorem package_manager_precedence (yarnLock pnpmLock bunLockb : Bool) :
    installCmd (detectPackageManager yarnLock pnpmLock bunLockb) =
      (if yarnLock then "yarn"
       else if pnpmLock then "pnpm install"
       else if bunLockb then "bun install"
       else "npm install") := by
  cases yarnLock <;> cases pnpmLock <;> cases bunLockb <;> rfl

end SmartUp
